import Mathlib

/-!
Shallow embedding of the client-side form scripts of the `zoho_integration`
ERPNext app.  The repository consists of three JavaScript files that bind
form events (`refresh`, `client_id`) and button click handlers, plus a
setup guide.  Each handler is embedded as a pure function from the form
state (and, where a `frappe.call` is issued, from the response delivered to
its callback) to the list of observable effects it performs, in order.

Sources:
* `zoho_integration/zoho_integration/doctype/zoho_books_settings/zoho_books_settings.js`
* `zoho_integration/public/js/customer.js` (Customer and Item bindings)
* `zoho_integration/public/js/sales_invoice.js`
-/

set_option maxRecDepth 8192

namespace ZohoIntegration

/-- JavaScript string truthiness: the empty string (and absent field,
modelled as the empty string) is falsy, every other string is truthy. -/
def truthy (s : String) : Bool := s != ""

/-- JavaScript `n || d` for a numeric field: `0` (and an absent field,
modelled as `0`) is falsy, so it falls back to the default `d`. -/
def jsOr (n d : Nat) : Nat := if n = 0 then d else n

/-- The persistent fields of the `Zoho Books Settings` document that the
scripts touch.  String-valued fields model text/data/date fields, with the
empty string standing for an unset field; the page-size fields are numeric
with `0` standing for unset. -/
structure SettingsDoc where
  client_id : String
  client_secret : String
  redirect_url : String
  access_token : String
  refresh_token : String
  organization_id : String
  last_sync_date : String
  customers_per_page : Nat
  items_per_page : Nat
  sync_from_date : String
deriving DecidableEq, Repr

/-- The fields of a `Customer` document read by `customer.js`. -/
structure CustomerDoc where
  name : String
  zoho_contact_id : String
deriving DecidableEq, Repr

/-- The fields of an `Item` document read by the `Item` binding. -/
structure ItemDoc where
  name : String
  zoho_item_id : String
deriving DecidableEq, Repr

/-- The fields of a `Sales Invoice` document read by `sales_invoice.js`.
`docstatus` is the framework's submission status (`1` = submitted). -/
structure InvoiceDoc where
  name : String
  docstatus : Nat
  zoho_invoice_id : String
  zoho_sync_status : String
deriving DecidableEq, Repr

/-- The `r.message` payload a `frappe.call` callback may receive.  Absent
string fields are the empty string, absent counts are `0`. -/
structure ZohoMessage where
  status : String
  authorization_url : String
  message : String
  synced_count : Nat
  updated_count : Nat
  error_count : Nat
deriving DecidableEq, Repr

/-- A callback response: `none` models `r.message` being null/undefined. -/
def Response : Type := Option ZohoMessage

/-- The observable effects a handler can perform, in program order. -/
inductive Effect where
  | call (method : String) (args : List (String × String))
  | msgprint (msg : String)
  | show_alert (msg : String) (indicator : String)
  | confirm (msg : String)
  | set_value (field : String) (value : String)
  | save
  | reload_doc
  | open_window (url : String)
  | add_custom_button (label : String) (group : String)
  | add_indicator (label : String) (color : String)
deriving DecidableEq, Repr

/-- `r.message && r.message.status === "success"`. -/
def respSuccess (r : Option ZohoMessage) : Bool :=
  match r with
  | some m => m.status == "success"
  | none => false

/-- `r.message && r.message.authorization_url` (truthiness of the URL). -/
def respHasAuthUrl (r : Option ZohoMessage) : Bool :=
  match r with
  | some m => truthy m.authorization_url
  | none => false

/-- Click handler of the "Setup OAuth" button
(`zoho_books_settings.js` lines 7-21): if the redirect URL is unset it
only prints a message and returns; otherwise it issues the
`get_authorization_url` call, and the callback opens the authorization
URL and prints a message when the response carries one. -/
def setupOAuthHandler (doc : SettingsDoc) (r : Option ZohoMessage) : List Effect :=
  if !truthy doc.redirect_url then
    [.msgprint "Please configure the Redirect URL first"]
  else
    .call "zoho_integration.auth.get_authorization_url" [] ::
    (match r with
     | some m =>
        if truthy m.authorization_url then
          [.open_window m.authorization_url,
           .msgprint "Please complete the OAuth authorization in the new window"]
        else []
     | none => [])

/-- Click handler of the "Test Connection" button
(`zoho_books_settings.js` lines 25-34). -/
def testConnectionHandler (r : Option ZohoMessage) : List Effect :=
  .call "zoho_integration.auth.test_connection" [] ::
  (if respSuccess r then [.msgprint "Connection successful!"] else [])

/-- Click handler of the "Refresh Token" button
(`zoho_books_settings.js` lines 37-47). -/
def refreshTokenHandler (r : Option ZohoMessage) : List Effect :=
  .call "zoho_integration.auth.refresh_access_token" [] ::
  (if respSuccess r then
    [.msgprint "Access token refreshed successfully!", .reload_doc]
   else [])

/-- Click handler of the "Get Zoho Customers" button
(`zoho_books_settings.js` lines 49-66): issues the customer sync call and,
on a success response, prints the counts, sets `last_sync_date` to the
current datetime `now` and saves the document. -/
def getCustomersHandler (doc : SettingsDoc) (r : Option ZohoMessage)
    (now : String) : List Effect :=
  .call "zoho_integration.customer.sync_customers_from_zoho_to_erpnext"
    [("organization_id", doc.organization_id),
     ("per_page", toString (jsOr doc.customers_per_page 50)),
     ("only_new", "true")] ::
  (match r with
   | some m =>
      if m.status == "success" then
        [.msgprint ("Customers synced successfully! Created: " ++
           toString m.synced_count ++ ", Updated: " ++
           toString m.updated_count ++ ", Errors: " ++ toString m.error_count),
         .set_value "last_sync_date" now,
         .save]
      else []
   | none => [])

/-- Click handler of the "Get Zoho Items" button
(`zoho_books_settings.js` lines 68-86). -/
def getItemsHandler (doc : SettingsDoc) (r : Option ZohoMessage)
    (now : String) : List Effect :=
  .call "zoho_integration.item.sync_items_from_zoho_to_erpnext"
    [("organization_id", doc.organization_id),
     ("per_page", toString (jsOr doc.items_per_page 50)),
     ("sync_from_date", doc.sync_from_date)] ::
  (match r with
   | some m =>
      if m.status == "success" then
        [.msgprint ("Items synced successfully! Created: " ++
           toString m.synced_count ++ ", Updated: " ++
           toString m.updated_count ++ ", Errors: " ++ toString m.error_count),
         .set_value "last_sync_date" now,
         .save]
      else []
   | none => [])

/-- The `refresh` binding of the `Zoho Books Settings` form
(`zoho_books_settings.js` lines 5-88): adds "Setup OAuth" when
`access_token` is falsy, and the four token-dependent buttons when it is
truthy. -/
def settingsRefresh (doc : SettingsDoc) : List Effect :=
  (if !truthy doc.access_token then
    [.add_custom_button "Setup OAuth" "OAuth Setup"]
   else []) ++
  (if truthy doc.access_token then
    [.add_custom_button "Test Connection" "Test",
     .add_custom_button "Refresh Token" "Refresh",
     .add_custom_button "Get Zoho Customers" "Get Customers",
     .add_custom_button "Get Zoho Items" "Get Items"]
   else [])

/-- The `client_id` field-change binding of the `Zoho Books Settings` form
(`zoho_books_settings.js` lines 90-96): clears both tokens when the new
client id is truthy and at least one token is truthy. -/
def clientIdHandler (doc : SettingsDoc) : List Effect :=
  if truthy doc.client_id && (truthy doc.access_token || truthy doc.refresh_token) then
    [.set_value "access_token" "", .set_value "refresh_token" ""]
  else []

/-- The `refresh` binding of the `Customer` form (`customer.js` lines 2-38):
on a saved document it adds "Push to Zoho Books", and additionally
"View in Zoho Books" when `zoho_contact_id` is set. -/
def customerRefresh (isNew : Bool) (doc : CustomerDoc) : List Effect :=
  if !isNew then
    .add_custom_button "Push to Zoho Books" "Zoho Integration" ::
    (if truthy doc.zoho_contact_id then
      [.add_custom_button "View in Zoho Books" "Zoho Integration"]
     else [])
  else []

/-- Click handler of the Customer "Push to Zoho Books" button
(`customer.js` lines 5-28): asks for confirmation; when confirmed, issues
the push call, and on success shows a green alert and reloads. -/
def customerPushHandler (doc : CustomerDoc) (confirmed : Bool)
    (r : Option ZohoMessage) : List Effect :=
  .confirm "Are you sure you want to push this customer to Zoho Books?" ::
  (if confirmed then
    .call "zoho_integration.customer.push_customer_to_zoho"
      [("customer_name", doc.name)] ::
    (if respSuccess r then
      [.show_alert "Customer pushed to Zoho Books successfully" "green",
       .reload_doc]
     else [])
   else [])

/-- Click handler of the Customer "View in Zoho Books" button
(`customer.js` lines 32-35): only opens the contact page. -/
def customerViewHandler (doc : CustomerDoc) : List Effect :=
  [.open_window ("https://books.zoho.com/app#/contacts/" ++ doc.zoho_contact_id)]

/-- The `refresh` binding of the `Item` form (`customer.js` lines 42-78). -/
def itemRefresh (isNew : Bool) (doc : ItemDoc) : List Effect :=
  if !isNew then
    .add_custom_button "Push to Zoho Books" "Zoho Integration" ::
    (if truthy doc.zoho_item_id then
      [.add_custom_button "View in Zoho Books" "Zoho Integration"]
     else [])
  else []

/-- Click handler of the Item "Push to Zoho Books" button
(`customer.js` lines 45-68). -/
def itemPushHandler (doc : ItemDoc) (confirmed : Bool)
    (r : Option ZohoMessage) : List Effect :=
  .confirm "Are you sure you want to push this item to Zoho Books?" ::
  (if confirmed then
    .call "zoho_integration.item.push_item_to_zoho"
      [("item_code", doc.name)] ::
    (if respSuccess r then
      [.show_alert "Item pushed to Zoho Books successfully" "green",
       .reload_doc]
     else [])
   else [])

/-- Click handler of the Item "View in Zoho Books" button
(`customer.js` lines 72-75). -/
def itemViewHandler (doc : ItemDoc) : List Effect :=
  [.open_window ("https://books.zoho.com/app#/inventory/items/" ++ doc.zoho_item_id)]

/-- Colour of the sync-status indicator (`sales_invoice.js` lines 47-54):
the colour map with `|| 'grey'` fallback. -/
def syncColor (s : String) : String :=
  if s == "Synced" then "green"
  else if s == "Not Synced" then "orange"
  else if s == "Failed" then "red"
  else "grey"

/-- The `refresh` binding of the `Sales Invoice` form
(`sales_invoice.js` lines 2-56): the push button requires a saved and
submitted (`docstatus === 1`) invoice; the sync-status indicator is shown
whenever `zoho_sync_status` is set. -/
def invoiceRefresh (isNew : Bool) (doc : InvoiceDoc) : List Effect :=
  (if !isNew && doc.docstatus == 1 then
    .add_custom_button "Push to Zoho Books" "Zoho Integration" ::
    (if truthy doc.zoho_invoice_id then
      [.add_custom_button "View in Zoho Books" "Zoho Integration"]
     else [])
   else []) ++
  (if truthy doc.zoho_sync_status then
    [.add_indicator ("Zoho Sync: " ++ doc.zoho_sync_status)
       (syncColor doc.zoho_sync_status)]
   else [])

/-- Click handler of the Sales Invoice "Push to Zoho Books" button
(`sales_invoice.js` lines 5-34): on success shows a green alert and
reloads; otherwise, when the response carries a `message` text, prints it
as a red error dialog. -/
def invoicePushHandler (doc : InvoiceDoc) (confirmed : Bool)
    (r : Option ZohoMessage) : List Effect :=
  .confirm "Are you sure you want to push this invoice to Zoho Books?" ::
  (if confirmed then
    .call "zoho_integration.invoice.send_invoice_to_zoho"
      [("invoice_id", doc.name)] ::
    (match r with
     | some m =>
        if m.status == "success" then
          [.show_alert "Invoice pushed to Zoho Books successfully" "green",
           .reload_doc]
        else if truthy m.message then
          [.msgprint m.message]
        else []
     | none => [])
   else [])

/-- Click handler of the Sales Invoice "View in Zoho Books" button
(`sales_invoice.js` lines 38-41). -/
def invoiceViewHandler (doc : InvoiceDoc) : List Effect :=
  [.open_window ("https://books.zoho.com/app#/invoices/" ++ doc.zoho_invoice_id)]

/-- The (doctype, event) pairs bound by `frappe.ui.form.on` across the
three script files. -/
def boundEvents : List (String × String) :=
  [("Zoho Books Settings", "refresh"),
   ("Zoho Books Settings", "client_id"),
   ("Customer", "refresh"),
   ("Item", "refresh"),
   ("Sales Invoice", "refresh")]

/-- Whether an effect is a `frappe.call`. -/
def isCall : Effect → Bool
  | .call _ _ => true
  | _ => false

/-- Whether an effect is a user-visible message (`frappe.msgprint` or
`frappe.show_alert`). -/
def isMessage : Effect → Bool
  | .msgprint _ => true
  | .show_alert _ _ => true
  | _ => false

/-- Whether an effect writes the document (`frm.set_value` or `frm.save`). -/
def isWrite : Effect → Bool
  | .set_value _ _ => true
  | .save => true
  | _ => false

/-- The trace contains at least one `frappe.call`. -/
def hasCall (t : List Effect) : Bool := t.any isCall

/-- The trace contains at least one user-visible message. -/
def hasMessage (t : List Effect) : Bool := t.any isMessage

/-- The trace contains at least one document write. -/
def hasWrite (t : List Effect) : Bool := t.any isWrite

/-- The server methods named by the `frappe.call` effects of a trace. -/
def callMethods (t : List Effect) : List String :=
  t.filterMap fun e => match e with
    | .call m _ => some m
    | _ => none

/-- The labels of the custom buttons added by a trace. -/
def buttonLabels (t : List Effect) : List String :=
  t.filterMap fun e => match e with
    | .add_custom_button l _ => some l
    | _ => none

/-- A server method lives in one of the four `zoho_integration` modules
named by the spec (checked on the underlying character lists). -/
def allowedModule (m : String) : Bool :=
  "zoho_integration.auth.".data.isPrefixOf m.data ||
  "zoho_integration.customer.".data.isPrefixOf m.data ||
  "zoho_integration.item.".data.isPrefixOf m.data ||
  "zoho_integration.invoice.".data.isPrefixOf m.data

/-- Every `frm.doc` field the three script files read or write, one entry
per distinct field: `access_token` (settings lines 6, 24, 92-93),
`redirect_url` (8), `organization_id` (53, 72), `customers_per_page` (54),
`sync_from_date` (74), `items_per_page` (73), `last_sync_date` (61, 81),
`client_id` (90-92), `refresh_token` (92, 94), `name` (customer 12,
item 52, invoice 12), `zoho_contact_id` (customer 31, 34), `zoho_item_id`
(item 71, 74), `docstatus` (invoice 4), `zoho_invoice_id` (invoice 37, 40),
`zoho_sync_status` (invoice 46, 53-54). -/
def referencedFields : List String :=
  ["access_token", "redirect_url", "organization_id", "customers_per_page",
   "sync_from_date", "items_per_page", "last_sync_date", "client_id",
   "refresh_token", "name", "zoho_contact_id", "zoho_item_id", "docstatus",
   "zoho_invoice_id", "zoho_sync_status"]

/-- The field list as the spec's data-model section states it (copied from
the spec's words, to be compared with `referencedFields`). -/
def specClaimedFields : List String :=
  ["client_id", "client_secret", "redirect_url", "access_token",
   "refresh_token", "organization_id", "last_sync_date",
   "customers_per_page", "items_per_page", "sync_from_date",
   "zoho_contact_id", "zoho_item_id", "zoho_invoice_id", "zoho_sync_status"]

/-- The spec's field list corrected against the source: `client_secret` is
never referenced by any script, while `name` and `docstatus` are. -/
def amendedFields : List String :=
  ["client_id", "redirect_url", "access_token",
   "refresh_token", "organization_id", "last_sync_date",
   "customers_per_page", "items_per_page", "sync_from_date",
   "zoho_contact_id", "zoho_item_id", "zoho_invoice_id", "zoho_sync_status",
   "name", "docstatus"]

/-- The invoice push callback's error branch fires: the response is not a
success but carries a truthy `message` text. -/
def respErrorMessage (r : Option ZohoMessage) : Bool :=
  match r with
  | some m => !(m.status == "success") && truthy m.message
  | none => false

/-- Basic truthiness facts used throughout. -/
theorem truthy_eq_true {s : String} : truthy s = true ↔ s ≠ "" := by
  simp [truthy]

theorem truthy_eq_false {s : String} : truthy s = false ↔ s = "" := by
  simp [truthy]

theorem setupOAuth_hasCall (doc : SettingsDoc) (r : Option ZohoMessage) :
    hasCall (setupOAuthHandler doc r) = truthy doc.redirect_url := by
  cases r with
  | none =>
      cases hb : truthy doc.redirect_url <;>
        simp [setupOAuthHandler, hasCall, isCall, hb]
  | some m =>
      cases hb : truthy doc.redirect_url <;>
      cases hu : truthy m.authorization_url <;>
        simp [setupOAuthHandler, hasCall, isCall, hb, hu]

theorem setupOAuth_hasMessage (doc : SettingsDoc) (r : Option ZohoMessage) :
    hasMessage (setupOAuthHandler doc r) =
      (!truthy doc.redirect_url || respHasAuthUrl r) := by
  cases r with
  | none =>
      cases hb : truthy doc.redirect_url <;>
        simp [setupOAuthHandler, hasMessage, isMessage, respHasAuthUrl, hb]
  | some m =>
      cases hb : truthy doc.redirect_url <;>
      cases hu : truthy m.authorization_url <;>
        simp [setupOAuthHandler, hasMessage, isMessage, respHasAuthUrl, hb, hu]

theorem setupOAuth_hasWrite (doc : SettingsDoc) (r : Option ZohoMessage) :
    hasWrite (setupOAuthHandler doc r) = false := by
  cases r with
  | none =>
      cases hb : truthy doc.redirect_url <;>
        simp [setupOAuthHandler, hasWrite, isWrite, hb]
  | some m =>
      cases hb : truthy doc.redirect_url <;>
      cases hu : truthy m.authorization_url <;>
        simp [setupOAuthHandler, hasWrite, isWrite, hb, hu]

theorem setupOAuth_calls (doc : SettingsDoc) (r : Option ZohoMessage) :
    callMethods (setupOAuthHandler doc r) =
      if truthy doc.redirect_url then
        ["zoho_integration.auth.get_authorization_url"]
      else [] := by
  cases r with
  | none =>
      cases hb : truthy doc.redirect_url <;>
        simp [setupOAuthHandler, callMethods, hb]
  | some m =>
      cases hb : truthy doc.redirect_url <;>
      cases hu : truthy m.authorization_url <;>
        simp [setupOAuthHandler, callMethods, hb, hu]

theorem testConnection_hasCall (r : Option ZohoMessage) :
    hasCall (testConnectionHandler r) = true := by
  cases hs : respSuccess r <;>
    simp [testConnectionHandler, hasCall, isCall, hs]

theorem testConnection_hasMessage (r : Option ZohoMessage) :
    hasMessage (testConnectionHandler r) = respSuccess r := by
  cases hs : respSuccess r <;>
    simp [testConnectionHandler, hasMessage, isMessage, hs]

theorem testConnection_hasWrite (r : Option ZohoMessage) :
    hasWrite (testConnectionHandler r) = false := by
  cases hs : respSuccess r <;>
    simp [testConnectionHandler, hasWrite, isWrite, hs]

theorem testConnection_calls (r : Option ZohoMessage) :
    callMethods (testConnectionHandler r) =
      ["zoho_integration.auth.test_connection"] := by
  cases hs : respSuccess r <;>
    simp [testConnectionHandler, callMethods, hs]

theorem refreshToken_hasCall (r : Option ZohoMessage) :
    hasCall (refreshTokenHandler r) = true := by
  cases hs : respSuccess r <;>
    simp [refreshTokenHandler, hasCall, isCall, hs]

theorem refreshToken_hasMessage (r : Option ZohoMessage) :
    hasMessage (refreshTokenHandler r) = respSuccess r := by
  cases hs : respSuccess r <;>
    simp [refreshTokenHandler, hasMessage, isMessage, hs]

theorem refreshToken_hasWrite (r : Option ZohoMessage) :
    hasWrite (refreshTokenHandler r) = false := by
  cases hs : respSuccess r <;>
    simp [refreshTokenHandler, hasWrite, isWrite, hs]

theorem refreshToken_calls (r : Option ZohoMessage) :
    callMethods (refreshTokenHandler r) =
      ["zoho_integration.auth.refresh_access_token"] := by
  cases hs : respSuccess r <;>
    simp [refreshTokenHandler, callMethods, hs]

theorem getCustomers_hasCall (doc : SettingsDoc) (r : Option ZohoMessage)
    (now : String) : hasCall (getCustomersHandler doc r now) = true := by
  cases r with
  | none => simp [getCustomersHandler, hasCall, isCall]
  | some m =>
      cases hs : m.status == "success" <;>
        simp [getCustomersHandler, hasCall, isCall, hs]

theorem getCustomers_hasMessage (doc : SettingsDoc) (r : Option ZohoMessage)
    (now : String) : hasMessage (getCustomersHandler doc r now) = respSuccess r := by
  cases r with
  | none => simp [getCustomersHandler, hasMessage, isMessage, respSuccess]
  | some m =>
      cases hs : m.status == "success" <;>
        simp [getCustomersHandler, hasMessage, isMessage, respSuccess, hs]

theorem getCustomers_hasWrite (doc : SettingsDoc) (r : Option ZohoMessage)
    (now : String) : hasWrite (getCustomersHandler doc r now) = respSuccess r := by
  cases r with
  | none => simp [getCustomersHandler, hasWrite, isWrite, respSuccess]
  | some m =>
      cases hs : m.status == "success" <;>
        simp [getCustomersHandler, hasWrite, isWrite, respSuccess, hs]

theorem getCustomers_set_iff (doc : SettingsDoc) (r : Option ZohoMessage)
    (now : String) :
    (Effect.set_value "last_sync_date" now ∈ getCustomersHandler doc r now ↔
      respSuccess r = true) ∧
    (Effect.save ∈ getCustomersHandler doc r now ↔ respSuccess r = true) := by
  cases r with
  | none => simp [getCustomersHandler, respSuccess]
  | some m =>
      cases hs : m.status == "success" <;>
        simp [getCustomersHandler, respSuccess, hs]

theorem getCustomers_calls (doc : SettingsDoc) (r : Option ZohoMessage)
    (now : String) :
    callMethods (getCustomersHandler doc r now) =
      ["zoho_integration.customer.sync_customers_from_zoho_to_erpnext"] := by
  cases r with
  | none => simp [getCustomersHandler, callMethods]
  | some m =>
      cases hs : m.status == "success" <;>
        simp [getCustomersHandler, callMethods, hs]

theorem getItems_hasCall (doc : SettingsDoc) (r : Option ZohoMessage)
    (now : String) : hasCall (getItemsHandler doc r now) = true := by
  cases r with
  | none => simp [getItemsHandler, hasCall, isCall]
  | some m =>
      cases hs : m.status == "success" <;>
        simp [getItemsHandler, hasCall, isCall, hs]

theorem getItems_hasMessage (doc : SettingsDoc) (r : Option ZohoMessage)
    (now : String) : hasMessage (getItemsHandler doc r now) = respSuccess r := by
  cases r with
  | none => simp [getItemsHandler, hasMessage, isMessage, respSuccess]
  | some m =>
      cases hs : m.status == "success" <;>
        simp [getItemsHandler, hasMessage, isMessage, respSuccess, hs]

theorem getItems_hasWrite (doc : SettingsDoc) (r : Option ZohoMessage)
    (now : String) : hasWrite (getItemsHandler doc r now) = respSuccess r := by
  cases r with
  | none => simp [getItemsHandler, hasWrite, isWrite, respSuccess]
  | some m =>
      cases hs : m.status == "success" <;>
        simp [getItemsHandler, hasWrite, isWrite, respSuccess, hs]

theorem getItems_set_iff (doc : SettingsDoc) (r : Option ZohoMessage)
    (now : String) :
    (Effect.set_value "last_sync_date" now ∈ getItemsHandler doc r now ↔
      respSuccess r = true) ∧
    (Effect.save ∈ getItemsHandler doc r now ↔ respSuccess r = true) := by
  cases r with
  | none => simp [getItemsHandler, respSuccess]
  | some m =>
      cases hs : m.status == "success" <;>
        simp [getItemsHandler, respSuccess, hs]

theorem getItems_calls (doc : SettingsDoc) (r : Option ZohoMessage)
    (now : String) :
    callMethods (getItemsHandler doc r now) =
      ["zoho_integration.item.sync_items_from_zoho_to_erpnext"] := by
  cases r with
  | none => simp [getItemsHandler, callMethods]
  | some m =>
      cases hs : m.status == "success" <;>
        simp [getItemsHandler, callMethods, hs]

theorem clientId_hasCall (doc : SettingsDoc) :
    hasCall (clientIdHandler doc) = false := by
  unfold clientIdHandler
  split <;> simp [hasCall, isCall]

theorem clientId_hasMessage (doc : SettingsDoc) :
    hasMessage (clientIdHandler doc) = false := by
  unfold clientIdHandler
  split <;> simp [hasMessage, isMessage]

theorem clientId_hasWrite (doc : SettingsDoc) :
    hasWrite (clientIdHandler doc) =
      (truthy doc.client_id &&
        (truthy doc.access_token || truthy doc.refresh_token)) := by
  cases hc : (truthy doc.client_id &&
      (truthy doc.access_token || truthy doc.refresh_token)) <;>
    simp [clientIdHandler, hasWrite, isWrite, hc]

theorem clientId_calls (doc : SettingsDoc) :
    callMethods (clientIdHandler doc) = [] := by
  unfold clientIdHandler
  split <;> simp [callMethods]

theorem settingsRefresh_hasCall (doc : SettingsDoc) :
    hasCall (settingsRefresh doc) = false := by
  cases hb : truthy doc.access_token <;>
    simp [settingsRefresh, hasCall, isCall, hb]

theorem settingsRefresh_hasWrite (doc : SettingsDoc) :
    hasWrite (settingsRefresh doc) = false := by
  cases hb : truthy doc.access_token <;>
    simp [settingsRefresh, hasWrite, isWrite, hb]

theorem settingsRefresh_calls (doc : SettingsDoc) :
    callMethods (settingsRefresh doc) = [] := by
  cases hb : truthy doc.access_token <;>
    simp [settingsRefresh, callMethods, hb]

theorem settingsRefresh_labels (doc : SettingsDoc) :
    buttonLabels (settingsRefresh doc) =
      if truthy doc.access_token then
        ["Test Connection", "Refresh Token", "Get Zoho Customers",
         "Get Zoho Items"]
      else ["Setup OAuth"] := by
  cases hb : truthy doc.access_token <;>
    simp [settingsRefresh, buttonLabels, hb]

theorem customerPush_hasCall (doc : CustomerDoc) (confirmed : Bool)
    (r : Option ZohoMessage) :
    hasCall (customerPushHandler doc confirmed r) = confirmed := by
  cases confirmed <;> cases hs : respSuccess r <;>
    simp [customerPushHandler, hasCall, isCall, hs]

theorem customerPush_hasMessage (doc : CustomerDoc) (confirmed : Bool)
    (r : Option ZohoMessage) :
    hasMessage (customerPushHandler doc confirmed r) =
      (confirmed && respSuccess r) := by
  cases confirmed <;> cases hs : respSuccess r <;>
    simp [customerPushHandler, hasMessage, isMessage, hs]

theorem customerPush_hasWrite (doc : CustomerDoc) (confirmed : Bool)
    (r : Option ZohoMessage) :
    hasWrite (customerPushHandler doc confirmed r) = false := by
  cases confirmed <;> cases hs : respSuccess r <;>
    simp [customerPushHandler, hasWrite, isWrite, hs]

theorem customerPush_calls (doc : CustomerDoc) (confirmed : Bool)
    (r : Option ZohoMessage) :
    callMethods (customerPushHandler doc confirmed r) =
      if confirmed then ["zoho_integration.customer.push_customer_to_zoho"]
      else [] := by
  cases confirmed <;> cases hs : respSuccess r <;>
    simp [customerPushHandler, callMethods, hs]

theorem itemPush_hasCall (doc : ItemDoc) (confirmed : Bool)
    (r : Option ZohoMessage) :
    hasCall (itemPushHandler doc confirmed r) = confirmed := by
  cases confirmed <;> cases hs : respSuccess r <;>
    simp [itemPushHandler, hasCall, isCall, hs]

theorem itemPush_hasMessage (doc : ItemDoc) (confirmed : Bool)
    (r : Option ZohoMessage) :
    hasMessage (itemPushHandler doc confirmed r) =
      (confirmed && respSuccess r) := by
  cases confirmed <;> cases hs : respSuccess r <;>
    simp [itemPushHandler, hasMessage, isMessage, hs]

theorem itemPush_hasWrite (doc : ItemDoc) (confirmed : Bool)
    (r : Option ZohoMessage) :
    hasWrite (itemPushHandler doc confirmed r) = false := by
  cases confirmed <;> cases hs : respSuccess r <;>
    simp [itemPushHandler, hasWrite, isWrite, hs]

theorem itemPush_calls (doc : ItemDoc) (confirmed : Bool)
    (r : Option ZohoMessage) :
    callMethods (itemPushHandler doc confirmed r) =
      if confirmed then ["zoho_integration.item.push_item_to_zoho"]
      else [] := by
  cases confirmed <;> cases hs : respSuccess r <;>
    simp [itemPushHandler, callMethods, hs]

theorem invoicePush_hasCall (doc : InvoiceDoc) (confirmed : Bool)
    (r : Option ZohoMessage) :
    hasCall (invoicePushHandler doc confirmed r) = confirmed := by
  cases confirmed <;> cases r with
  | none => simp [invoicePushHandler, hasCall, isCall]
  | some m =>
      cases hs : m.status == "success" <;>
      cases hm : truthy m.message <;>
        simp [invoicePushHandler, hasCall, isCall, hs, hm]

theorem invoicePush_hasMessage (doc : InvoiceDoc) (confirmed : Bool)
    (r : Option ZohoMessage) :
    hasMessage (invoicePushHandler doc confirmed r) =
      (confirmed && (respSuccess r || respErrorMessage r)) := by
  cases confirmed <;> cases r with
  | none => simp [invoicePushHandler, hasMessage, isMessage, respSuccess,
      respErrorMessage]
  | some m =>
      cases hs : m.status == "success" <;>
      cases hm : truthy m.message <;>
        simp [invoicePushHandler, hasMessage, isMessage, respSuccess,
          respErrorMessage, hs, hm]

theorem invoicePush_hasWrite (doc : InvoiceDoc) (confirmed : Bool)
    (r : Option ZohoMessage) :
    hasWrite (invoicePushHandler doc confirmed r) = false := by
  cases confirmed <;> cases r with
  | none => simp [invoicePushHandler, hasWrite, isWrite]
  | some m =>
      cases hs : m.status == "success" <;>
      cases hm : truthy m.message <;>
        simp [invoicePushHandler, hasWrite, isWrite, hs, hm]

theorem invoicePush_calls (doc : InvoiceDoc) (confirmed : Bool)
    (r : Option ZohoMessage) :
    callMethods (invoicePushHandler doc confirmed r) =
      if confirmed then ["zoho_integration.invoice.send_invoice_to_zoho"]
      else [] := by
  cases confirmed <;> cases r with
  | none => simp [invoicePushHandler, callMethods]
  | some m =>
      cases hs : m.status == "success" <;>
      cases hm : truthy m.message <;>
        simp [invoicePushHandler, callMethods, hs, hm]

theorem customerRefresh_hasCall (isNew : Bool) (doc : CustomerDoc) :
    hasCall (customerRefresh isNew doc) = false := by
  cases isNew <;> cases hc : truthy doc.zoho_contact_id <;>
    simp [customerRefresh, hasCall, isCall, hc]

theorem customerRefresh_hasWrite (isNew : Bool) (doc : CustomerDoc) :
    hasWrite (customerRefresh isNew doc) = false := by
  cases isNew <;> cases hc : truthy doc.zoho_contact_id <;>
    simp [customerRefresh, hasWrite, isWrite, hc]

theorem customerRefresh_calls (isNew : Bool) (doc : CustomerDoc) :
    callMethods (customerRefresh isNew doc) = [] := by
  cases isNew <;> cases hc : truthy doc.zoho_contact_id <;>
    simp [customerRefresh, callMethods, hc]

theorem itemRefresh_hasCall (isNew : Bool) (doc : ItemDoc) :
    hasCall (itemRefresh isNew doc) = false := by
  cases isNew <;> cases hc : truthy doc.zoho_item_id <;>
    simp [itemRefresh, hasCall, isCall, hc]

theorem itemRefresh_hasWrite (isNew : Bool) (doc : ItemDoc) :
    hasWrite (itemRefresh isNew doc) = false := by
  cases isNew <;> cases hc : truthy doc.zoho_item_id <;>
    simp [itemRefresh, hasWrite, isWrite, hc]

theorem itemRefresh_calls (isNew : Bool) (doc : ItemDoc) :
    callMethods (itemRefresh isNew doc) = [] := by
  cases isNew <;> cases hc : truthy doc.zoho_item_id <;>
    simp [itemRefresh, callMethods, hc]

theorem invoiceRefresh_hasCall (isNew : Bool) (doc : InvoiceDoc) :
    hasCall (invoiceRefresh isNew doc) = false := by
  cases isNew <;> cases hd : doc.docstatus == 1 <;>
  cases hc : truthy doc.zoho_invoice_id <;>
  cases hstat : truthy doc.zoho_sync_status <;>
    simp [invoiceRefresh, hasCall, isCall, hd, hc, hstat]

theorem invoiceRefresh_hasWrite (isNew : Bool) (doc : InvoiceDoc) :
    hasWrite (invoiceRefresh isNew doc) = false := by
  cases isNew <;> cases hd : doc.docstatus == 1 <;>
  cases hc : truthy doc.zoho_invoice_id <;>
  cases hstat : truthy doc.zoho_sync_status <;>
    simp [invoiceRefresh, hasWrite, isWrite, hd, hc, hstat]

theorem invoiceRefresh_calls (isNew : Bool) (doc : InvoiceDoc) :
    callMethods (invoiceRefresh isNew doc) = [] := by
  cases isNew <;> cases hd : doc.docstatus == 1 <;>
  cases hc : truthy doc.zoho_invoice_id <;>
  cases hstat : truthy doc.zoho_sync_status <;>
    simp [invoiceRefresh, callMethods, hd, hc, hstat]

theorem customerView_trace (doc : CustomerDoc) :
    hasCall (customerViewHandler doc) = false ∧
    hasMessage (customerViewHandler doc) = false ∧
    hasWrite (customerViewHandler doc) = false ∧
    callMethods (customerViewHandler doc) = [] := by
  simp [customerViewHandler, hasCall, hasMessage, hasWrite,
    isCall, isMessage, isWrite, callMethods]

theorem itemView_trace (doc : ItemDoc) :
    hasCall (itemViewHandler doc) = false ∧
    hasMessage (itemViewHandler doc) = false ∧
    hasWrite (itemViewHandler doc) = false ∧
    callMethods (itemViewHandler doc) = [] := by
  simp [itemViewHandler, hasCall, hasMessage, hasWrite,
    isCall, isMessage, isWrite, callMethods]

theorem invoiceView_trace (doc : InvoiceDoc) :
    hasCall (invoiceViewHandler doc) = false ∧
    hasMessage (invoiceViewHandler doc) = false ∧
    hasWrite (invoiceViewHandler doc) = false ∧
    callMethods (invoiceViewHandler doc) = [] := by
  simp [invoiceViewHandler, hasCall, hasMessage, hasWrite,
    isCall, isMessage, isWrite, callMethods]

theorem customerRefresh_labels (isNew : Bool) (doc : CustomerDoc) :
    buttonLabels (customerRefresh isNew doc) =
      if isNew then []
      else if truthy doc.zoho_contact_id then
        ["Push to Zoho Books", "View in Zoho Books"]
      else ["Push to Zoho Books"] := by
  cases isNew <;> cases hc : truthy doc.zoho_contact_id <;>
    simp [customerRefresh, buttonLabels, hc]

theorem itemRefresh_labels (isNew : Bool) (doc : ItemDoc) :
    buttonLabels (itemRefresh isNew doc) =
      if isNew then []
      else if truthy doc.zoho_item_id then
        ["Push to Zoho Books", "View in Zoho Books"]
      else ["Push to Zoho Books"] := by
  cases isNew <;> cases hc : truthy doc.zoho_item_id <;>
    simp [itemRefresh, buttonLabels, hc]

theorem invoiceRefresh_labels (isNew : Bool) (doc : InvoiceDoc) :
    buttonLabels (invoiceRefresh isNew doc) =
      if !isNew && doc.docstatus == 1 then
        (if truthy doc.zoho_invoice_id then
          ["Push to Zoho Books", "View in Zoho Books"]
         else ["Push to Zoho Books"])
      else [] := by
  cases isNew <;> cases hd : doc.docstatus == 1 <;>
  cases hc : truthy doc.zoho_invoice_id <;>
  cases hstat : truthy doc.zoho_sync_status <;>
    simp [invoiceRefresh, buttonLabels, hd, hc, hstat]

/-- Claim C1, counterexample: on the settings document with every field
unset, the refresh binding adds only "Setup OAuth"; neither "Revoke Token"
nor "Test Connection" is added, so it is not the case that each of the four
named buttons is added for every settings document.  (No branch of the
source adds a "Revoke Token" button at all.) -/
theorem c1_revoke_token_button_missing :
    "Revoke Token" ∉ buttonLabels (settingsRefresh
      ⟨"", "", "", "", "", "", "", 0, 0, ""⟩) ∧
    "Test Connection" ∉ buttonLabels (settingsRefresh
      ⟨"", "", "", "", "", "", "", 0, 0, ""⟩) := by
  decide

/-- Claim C1, amended: for every settings document the refresh binding adds
"Setup OAuth" exactly when `access_token` is empty and "Test Connection"
and "Refresh Token" exactly when it is non-empty; no branch ever adds a
"Revoke Token" button. -/
theorem c1_settings_refresh_buttons_amended (doc : SettingsDoc) :
    ("Setup OAuth" ∈ buttonLabels (settingsRefresh doc) ↔
      doc.access_token = "") ∧
    ("Test Connection" ∈ buttonLabels (settingsRefresh doc) ↔
      doc.access_token ≠ "") ∧
    ("Refresh Token" ∈ buttonLabels (settingsRefresh doc) ↔
      doc.access_token ≠ "") ∧
    "Revoke Token" ∉ buttonLabels (settingsRefresh doc) := by
  cases hb : truthy doc.access_token
  · rw [truthy_eq_false] at hb
    simp [settingsRefresh_labels, truthy, hb]
  · rw [truthy_eq_true] at hb
    simp [settingsRefresh_labels, truthy, hb]

/-- Claim C2, counterexample: the `client_id` field-change handler, on a
document whose new client id is non-empty and which still holds tokens,
writes `access_token` and `refresh_token` via `set_value` although its run
performs no remote call at all. -/
theorem c2_client_id_writes_without_remote_call :
    hasCall (clientIdHandler
      ⟨"new-client-id", "", "", "tok", "ref", "", "", 0, 0, ""⟩) = false ∧
    Effect.set_value "access_token" "" ∈
      clientIdHandler ⟨"new-client-id", "", "", "tok", "ref", "", "", 0, 0, ""⟩ ∧
    hasWrite (clientIdHandler
      ⟨"new-client-id", "", "", "tok", "ref", "", "", 0, 0, ""⟩) = true := by
  decide

/-- Claim C2, amended: every write a button handler performs happens only
after a success response — the two sync handlers write exactly when the
response status is "success" and every other button handler never writes —
except the `client_id` field-change handler, which clears the token fields
without any remote call whenever the new client id is truthy and a token is
present. -/
theorem c2_writes_only_after_success_amended (sdoc : SettingsDoc)
    (cdoc : CustomerDoc) (idoc : ItemDoc) (vdoc : InvoiceDoc)
    (r : Option ZohoMessage) (now : String) (confirmed isNew : Bool) :
    hasWrite (getCustomersHandler sdoc r now) = respSuccess r ∧
    hasWrite (getItemsHandler sdoc r now) = respSuccess r ∧
    hasWrite (setupOAuthHandler sdoc r) = false ∧
    hasWrite (testConnectionHandler r) = false ∧
    hasWrite (refreshTokenHandler r) = false ∧
    hasWrite (customerPushHandler cdoc confirmed r) = false ∧
    hasWrite (itemPushHandler idoc confirmed r) = false ∧
    hasWrite (invoicePushHandler vdoc confirmed r) = false ∧
    hasWrite (customerViewHandler cdoc) = false ∧
    hasWrite (itemViewHandler idoc) = false ∧
    hasWrite (invoiceViewHandler vdoc) = false ∧
    hasWrite (settingsRefresh sdoc) = false ∧
    hasWrite (customerRefresh isNew cdoc) = false ∧
    hasWrite (itemRefresh isNew idoc) = false ∧
    hasWrite (invoiceRefresh isNew vdoc) = false ∧
    hasCall (clientIdHandler sdoc) = false ∧
    hasWrite (clientIdHandler sdoc) =
      (truthy sdoc.client_id &&
        (truthy sdoc.access_token || truthy sdoc.refresh_token)) :=
  ⟨getCustomers_hasWrite sdoc r now, getItems_hasWrite sdoc r now,
   setupOAuth_hasWrite sdoc r, testConnection_hasWrite r,
   refreshToken_hasWrite r, customerPush_hasWrite cdoc confirmed r,
   itemPush_hasWrite idoc confirmed r, invoicePush_hasWrite vdoc confirmed r,
   (customerView_trace cdoc).2.2.1, (itemView_trace idoc).2.2.1,
   (invoiceView_trace vdoc).2.2.1, settingsRefresh_hasWrite sdoc,
   customerRefresh_hasWrite isNew cdoc, itemRefresh_hasWrite isNew idoc,
   invoiceRefresh_hasWrite isNew vdoc, clientId_hasCall sdoc,
   clientId_hasWrite sdoc⟩

/-- Claim C3, counterexample: the Customer "View in Zoho Books" button
handler performs no `frappe.call` and shows no message — it only opens a
browser window — so not every bound handler issues a remote call and
displays a message. -/
theorem c3_view_button_no_call_no_message :
    hasCall (customerViewHandler ⟨"CUST-0001", "123456"⟩) = false ∧
    hasMessage (customerViewHandler ⟨"CUST-0001", "123456"⟩) = false ∧
    hasCall (clientIdHandler
      ⟨"new-client-id", "", "", "tok", "ref", "", "", 0, 0, ""⟩) = false ∧
    hasMessage (clientIdHandler
      ⟨"new-client-id", "", "", "tok", "ref", "", "", 0, 0, ""⟩) = false := by
  decide

/-- Claim C3, amended: the handlers that issue a `frappe.call` are exactly
the eight action-button handlers — the settings buttons always call (Setup
OAuth only once the redirect URL is configured) and the push buttons call
once confirmed — and each displays a user-visible message exactly when its
response condition holds (success status, or for Setup OAuth an
authorization URL, or for the invoice push also an error text); the
"View in Zoho Books" buttons and the `client_id` field-change handler
perform no remote call and display no message. -/
theorem c3_calls_and_messages_amended (sdoc : SettingsDoc)
    (cdoc : CustomerDoc) (idoc : ItemDoc) (vdoc : InvoiceDoc)
    (r : Option ZohoMessage) (now : String) (confirmed : Bool) :
    hasCall (testConnectionHandler r) = true ∧
    hasMessage (testConnectionHandler r) = respSuccess r ∧
    hasCall (refreshTokenHandler r) = true ∧
    hasMessage (refreshTokenHandler r) = respSuccess r ∧
    hasCall (getCustomersHandler sdoc r now) = true ∧
    hasMessage (getCustomersHandler sdoc r now) = respSuccess r ∧
    hasCall (getItemsHandler sdoc r now) = true ∧
    hasMessage (getItemsHandler sdoc r now) = respSuccess r ∧
    hasCall (setupOAuthHandler sdoc r) = truthy sdoc.redirect_url ∧
    hasMessage (setupOAuthHandler sdoc r) =
      (!truthy sdoc.redirect_url || respHasAuthUrl r) ∧
    hasCall (customerPushHandler cdoc confirmed r) = confirmed ∧
    hasMessage (customerPushHandler cdoc confirmed r) =
      (confirmed && respSuccess r) ∧
    hasCall (itemPushHandler idoc confirmed r) = confirmed ∧
    hasMessage (itemPushHandler idoc confirmed r) =
      (confirmed && respSuccess r) ∧
    hasCall (invoicePushHandler vdoc confirmed r) = confirmed ∧
    hasMessage (invoicePushHandler vdoc confirmed r) =
      (confirmed && (respSuccess r || respErrorMessage r)) ∧
    hasCall (customerViewHandler cdoc) = false ∧
    hasMessage (customerViewHandler cdoc) = false ∧
    hasCall (itemViewHandler idoc) = false ∧
    hasMessage (itemViewHandler idoc) = false ∧
    hasCall (invoiceViewHandler vdoc) = false ∧
    hasMessage (invoiceViewHandler vdoc) = false ∧
    hasCall (clientIdHandler sdoc) = false ∧
    hasMessage (clientIdHandler sdoc) = false :=
  ⟨testConnection_hasCall r, testConnection_hasMessage r,
   refreshToken_hasCall r, refreshToken_hasMessage r,
   getCustomers_hasCall sdoc r now, getCustomers_hasMessage sdoc r now,
   getItems_hasCall sdoc r now, getItems_hasMessage sdoc r now,
   setupOAuth_hasCall sdoc r, setupOAuth_hasMessage sdoc r,
   customerPush_hasCall cdoc confirmed r, customerPush_hasMessage cdoc confirmed r,
   itemPush_hasCall idoc confirmed r, itemPush_hasMessage idoc confirmed r,
   invoicePush_hasCall vdoc confirmed r, invoicePush_hasMessage vdoc confirmed r,
   (customerView_trace cdoc).1, (customerView_trace cdoc).2.1,
   (itemView_trace idoc).1, (itemView_trace idoc).2.1,
   (invoiceView_trace vdoc).1, (invoiceView_trace vdoc).2.1,
   clientId_hasCall sdoc, clientId_hasMessage sdoc⟩

/-- Claim C4, counterexample: the scripts reference the document fields
`docstatus` (sales_invoice.js line 4) and `name` (customer.js line 12,
item binding line 52, sales_invoice.js line 12), neither of which is in
the spec's field list, while the listed `client_secret` is referenced by no
script. -/
theorem c4_field_list_differs_from_spec :
    ("docstatus" ∈ referencedFields ∧ "docstatus" ∉ specClaimedFields) ∧
    ("name" ∈ referencedFields ∧ "name" ∉ specClaimedFields) ∧
    ("client_secret" ∈ specClaimedFields ∧
      "client_secret" ∉ referencedFields) := by
  decide

/-- Claim C4, amended: the persistent document fields the code reads or
writes are exactly the spec's list with `client_secret` removed and `name`
and `docstatus` added. -/
theorem c4_referenced_fields_amended :
    (referencedFields.all fun f => amendedFields.contains f) = true ∧
    (amendedFields.all fun f => referencedFields.contains f) = true := by
  decide

/-- Claim C5: every `frappe.call` any handler can issue, over all documents,
confirmation choices and responses, names a server method in one of the
four modules `zoho_integration.auth`, `zoho_integration.customer`,
`zoho_integration.item`, `zoho_integration.invoice`. -/
theorem c5_all_calls_target_four_modules (sdoc : SettingsDoc)
    (cdoc : CustomerDoc) (idoc : ItemDoc) (vdoc : InvoiceDoc)
    (r : Option ZohoMessage) (now : String) (confirmed isNew : Bool) :
    ((callMethods (setupOAuthHandler sdoc r) ++
      callMethods (testConnectionHandler r) ++
      callMethods (refreshTokenHandler r) ++
      callMethods (getCustomersHandler sdoc r now) ++
      callMethods (getItemsHandler sdoc r now) ++
      callMethods (clientIdHandler sdoc) ++
      callMethods (settingsRefresh sdoc) ++
      callMethods (customerRefresh isNew cdoc) ++
      callMethods (customerPushHandler cdoc confirmed r) ++
      callMethods (customerViewHandler cdoc) ++
      callMethods (itemRefresh isNew idoc) ++
      callMethods (itemPushHandler idoc confirmed r) ++
      callMethods (itemViewHandler idoc) ++
      callMethods (invoiceRefresh isNew vdoc) ++
      callMethods (invoicePushHandler vdoc confirmed r) ++
      callMethods (invoiceViewHandler vdoc)).all allowedModule) = true := by
  simp only [setupOAuth_calls, testConnection_calls, refreshToken_calls,
    getCustomers_calls, getItems_calls, clientId_calls, settingsRefresh_calls,
    customerRefresh_calls, customerPush_calls, customerView_trace,
    itemRefresh_calls, itemPush_calls, itemView_trace, invoiceRefresh_calls,
    invoicePush_calls, invoiceView_trace]
  cases hb : truthy sdoc.redirect_url <;> cases confirmed <;> simp <;> decide

/-- Claim C6: the "Get Zoho Customers" and "Get Zoho Items" callbacks set
`last_sync_date` to the current datetime and save the document exactly when
the response status is "success", and on any other response perform no
document write at all. -/
theorem c6_sync_buttons_write_iff_success (doc : SettingsDoc)
    (r : Option ZohoMessage) (now : String) :
    (Effect.set_value "last_sync_date" now ∈ getCustomersHandler doc r now ↔
      respSuccess r = true) ∧
    (Effect.save ∈ getCustomersHandler doc r now ↔ respSuccess r = true) ∧
    hasWrite (getCustomersHandler doc r now) = respSuccess r ∧
    (Effect.set_value "last_sync_date" now ∈ getItemsHandler doc r now ↔
      respSuccess r = true) ∧
    (Effect.save ∈ getItemsHandler doc r now ↔ respSuccess r = true) ∧
    hasWrite (getItemsHandler doc r now) = respSuccess r :=
  ⟨(getCustomers_set_iff doc r now).1, (getCustomers_set_iff doc r now).2,
   getCustomers_hasWrite doc r now,
   (getItems_set_iff doc r now).1, (getItems_set_iff doc r now).2,
   getItems_hasWrite doc r now⟩

/-- Claim C7: the only events bound by `frappe.ui.form.on` across all
source files are the form `refresh` event and the `client_id` field-change
event. -/
theorem c7_only_refresh_and_client_id_bound :
    (boundEvents.all fun p => p.2 == "refresh" || p.2 == "client_id") =
      true := by
  decide

/-- Claim C8: the "Push to Zoho Books" button appears on a Sales Invoice
exactly when the document is saved and submitted (`docstatus = 1`), and on
a Customer or Item exactly when the document is saved. -/
theorem c8_push_button_requirements :
    (∀ (isNew : Bool) (doc : InvoiceDoc),
      "Push to Zoho Books" ∈ buttonLabels (invoiceRefresh isNew doc) ↔
        (isNew = false ∧ doc.docstatus = 1)) ∧
    (∀ (isNew : Bool) (doc : CustomerDoc),
      "Push to Zoho Books" ∈ buttonLabels (customerRefresh isNew doc) ↔
        isNew = false) ∧
    (∀ (isNew : Bool) (doc : ItemDoc),
      "Push to Zoho Books" ∈ buttonLabels (itemRefresh isNew doc) ↔
        isNew = false) := by
  refine ⟨fun isNew doc => ?_, fun isNew doc => ?_, fun isNew doc => ?_⟩
  · rw [invoiceRefresh_labels]
    cases isNew <;> cases hd : doc.docstatus == 1 <;>
      cases hc : truthy doc.zoho_invoice_id <;> simp_all
  · rw [customerRefresh_labels]
    cases isNew <;> cases hc : truthy doc.zoho_contact_id <;> simp_all
  · rw [itemRefresh_labels]
    cases isNew <;> cases hc : truthy doc.zoho_item_id <;> simp_all

/-- Claim C9: on the settings form, "Setup OAuth" is added exactly when
`access_token` is empty, each of "Test Connection", "Refresh Token",
"Get Zoho Customers" and "Get Zoho Items" exactly when it is non-empty,
and the two groups are never shown together. -/
theorem c9_settings_button_groups_exclusive (doc : SettingsDoc) :
    ("Setup OAuth" ∈ buttonLabels (settingsRefresh doc) ↔
      doc.access_token = "") ∧
    ("Test Connection" ∈ buttonLabels (settingsRefresh doc) ↔
      doc.access_token ≠ "") ∧
    ("Refresh Token" ∈ buttonLabels (settingsRefresh doc) ↔
      doc.access_token ≠ "") ∧
    ("Get Zoho Customers" ∈ buttonLabels (settingsRefresh doc) ↔
      doc.access_token ≠ "") ∧
    ("Get Zoho Items" ∈ buttonLabels (settingsRefresh doc) ↔
      doc.access_token ≠ "") ∧
    ¬("Setup OAuth" ∈ buttonLabels (settingsRefresh doc) ∧
      "Test Connection" ∈ buttonLabels (settingsRefresh doc)) := by
  cases hb : truthy doc.access_token
  · rw [truthy_eq_false] at hb
    simp [settingsRefresh_labels, truthy, hb]
  · rw [truthy_eq_true] at hb
    simp [settingsRefresh_labels, truthy, hb]

/-- Claim C10: the `client_id` field-change handler sets both
`access_token` and `refresh_token` to the empty string exactly when the new
client id is non-empty and at least one of the two tokens is non-empty, and
otherwise performs nothing. -/
theorem c10_client_id_clears_tokens (doc : SettingsDoc) :
    (clientIdHandler doc =
       [Effect.set_value "access_token" "",
        Effect.set_value "refresh_token" ""] ↔
      (doc.client_id ≠ "" ∧
        (doc.access_token ≠ "" ∨ doc.refresh_token ≠ ""))) ∧
    (clientIdHandler doc = [] ↔
      (doc.client_id = "" ∨
        (doc.access_token = "" ∧ doc.refresh_token = ""))) := by
  cases hc : truthy doc.client_id <;> cases ha : truthy doc.access_token <;>
  cases hr : truthy doc.refresh_token <;>
    simp only [truthy_eq_false, truthy_eq_true] at hc ha hr <;>
    simp [clientIdHandler, truthy, hc, ha, hr]

end ZohoIntegration
